import Mathlib

/-!
Verification of the ethui browser-extension connection core.

This file gives a shallow embedding of the background connection logic:
  * `src/background/connectionState.ts` — global connection state, the
    one-shot disconnected notification and the `checkConnection` probe;
  * `src/background/appConnection.ts` — the app socket adapter
    (`createAppConnection`) with its outbound queue and intentional-close
    flag;
  * `fallbackConnection.ts` — the fallback socket adapter (textually the
    same adapter logic pointed at the fallback endpoint);
  * the per-tab session of the background entry point
    (`setupProviderConnection`): pending-message queue, single-flight
    `initializeConnection`, fallback switching and the pending-request
    table.

Asynchronous control flow (socket events, probe resolutions, timers) is
embedded as an explicit event type and a step function on the session
state; `await` points in the source become pairs of "start"/"resume"
transitions.  Ghost fields (`deliveredApp`, `deliveredFb`, `initStarts`,
`fbProbesStarted`, `resolveCount`, ...) record observable effects.
-/

namespace EthuiExt

/-- `ConnectionState` from connectionState.ts: "connected" | "disconnected" | "unknown". -/
inductive ConnState
  | connected
  | disconnected
  | unknown
deriving DecidableEq

/-- The module-level mutable state of connectionState.ts:
`globalConnectionState` and `hasShownNotification`. -/
structure NotifState where
  globalConnectionState : ConnState
  hasShownNotification : Bool
deriving DecidableEq

/-- Initial module state: `"unknown"`, notification not yet shown. -/
def NotifState.init : NotifState := ⟨ConnState.unknown, false⟩

/-- The object passed to `runtime.sendMessage` by `setConnectionState`.
The source builds `{ type: "connection-state", state: globalConnectionState }`;
it has no `source` field, which we record as `source := none`. -/
structure BroadcastMsg where
  type : String
  state : ConnState
  source : Option String
deriving DecidableEq

/-- Result of one `setConnectionState` call: the new module state, the
broadcast payload, and whether the one-shot notification was raised. -/
structure SetStateResult where
  state : NotifState
  broadcast : BroadcastMsg
  notified : Bool
deriving DecidableEq

/-- `setConnectionState` (connectionState.ts).  Updates
`globalConnectionState`, broadcasts `{type: "connection-state", state}`
(the `.catch(() => {})` on the broadcast swallows delivery failures, so
delivery failure does not affect the state), raises the notification on
the first transition into "disconnected" (`state === "disconnected" &&
previousState !== "disconnected" && !hasShownNotification`), and resets
the flag when `state === "connected"`. -/
def setConnectionState (s : NotifState) (state : ConnState) : SetStateResult :=
  let previousState := s.globalConnectionState
  let notified : Bool :=
    decide (state = ConnState.disconnected ∧ previousState ≠ ConnState.disconnected ∧
      s.hasShownNotification = false)
  let hasShown1 : Bool := s.hasShownNotification || notified
  let hasShown2 : Bool := if state = ConnState.connected then false else hasShown1
  { state := ⟨state, hasShown2⟩
    broadcast := ⟨"connection-state", state, none⟩
    notified := notified }

/-- Fold a sequence of `setConnectionState` calls, keeping only the state. -/
def runStates (s : NotifState) (calls : List ConnState) : NotifState :=
  calls.foldl (fun s c => (setConnectionState s c).state) s

/-- Trace of `notified` flags produced by a sequence of `setConnectionState` calls. -/
def notifyTrace : NotifState → List ConnState → List Bool
  | _, [] => []
  | s, c :: cs =>
    let r := setConnectionState s c
    r.notified :: notifyTrace r.state cs

/-- Specification side: the calls made since the most recent "connected"
call (the whole history if no "connected" occurred). -/
def sinceLastConnected (pre : List ConnState) : List ConnState :=
  pre.reverse.takeWhile (fun c => decide (c ≠ ConnState.connected))

/-- Specification side: a call `c` after history `pre` is the first
transition into "disconnected" since the last "connected". -/
def firstDisconnectSince (pre : List ConnState) (c : ConnState) : Bool :=
  decide (c = ConnState.disconnected) &&
    !(decide (ConnState.disconnected ∈ sinceLastConnected pre))

/-- Specification side: the expected notification trace, position by position. -/
def specNotifies : List ConnState → List ConnState → List Bool
  | _, [] => []
  | pre, c :: cs => firstDisconnectSince pre c :: specNotifies (pre ++ [c]) cs

/-! ## Socket adapter (appConnection.ts / fallbackConnection.ts)

`createAppConnection` and `createFallbackConnection` close over the same
four mutable variables: `ws` (whether a WebSocket instance exists),
`isConnectingFlag`, `intentionalClose` and `queue`.  `Conn` is that
closure state; socket lifecycle callbacks become pure transitions.
Messages handed to the live socket (`ws.send`) are returned as wire
output; the disconnect callback is returned as a `Bool`. -/

/-- Closure state of one adapter instance. -/
structure Conn where
  ws : Bool
  isConnectingFlag : Bool
  intentionalClose : Bool
  queue : List String
deriving DecidableEq

/-- State right after `createAppConnection` / `createFallbackConnection`
returns: no socket, not connecting, empty queue. -/
def Conn.create : Conn := ⟨false, false, false, []⟩

/-- `close()`: if a socket exists, mark the close intentional and drop the
socket; always clear `isConnectingFlag` and the queue. -/
def Conn.close (c : Conn) : Conn :=
  if c.ws then
    { ws := false, isConnectingFlag := false, intentionalClose := true, queue := [] }
  else
    { c with isConnectingFlag := false, queue := [] }

/-- `initWebSocket()`: no-op if a socket exists or we are already
connecting; otherwise set `isConnectingFlag` and build the socket
(`ws` is assigned synchronously by `builder.build()`). -/
def Conn.initWebSocket (c : Conn) : Conn :=
  if c.ws || c.isConnectingFlag then c
  else { c with ws := true, isConnectingFlag := true }

/-- `send(msg)`: lazily init the socket, then queue while not open,
otherwise send on the wire.  Returns the wire output of the call. -/
def Conn.send (c : Conn) (msg : String) : Conn × List String :=
  let c := if !c.ws && !c.isConnectingFlag then c.initWebSocket else c
  if !c.ws || c.isConnectingFlag then
    ({ c with queue := c.queue ++ [msg] }, [])
  else
    (c, [msg])

/-- The `for (const msg of pendingMessages) conn.send(msg)` flush loop. -/
def Conn.sendAll : Conn → List String → Conn × List String
  | c, [] => (c, [])
  | c, m :: ms =>
    let r := c.send m
    let rest := Conn.sendAll r.1 ms
    (rest.1, r.2 ++ rest.2)

/-- `onOpen` handler: clear `isConnectingFlag` and flush the queue in
order onto the wire (the handler also calls
`setConnectionState("connected", tag)`, threaded by the session step). -/
def Conn.onOpenEvt (c : Conn) : Conn × List String :=
  ({ c with isConnectingFlag := false, queue := [] }, c.queue)

/-- `onClose` handler: drop the socket, clear `isConnectingFlag`; if the
close was intentional, clear the flag and do nothing more, otherwise
report `true` (the `onDisconnect` callback fires). -/
def Conn.onCloseEvt (c : Conn) : Conn × Bool :=
  let c1 : Conn := { c with ws := false, isConnectingFlag := false }
  if c.intentionalClose then ({ c1 with intentionalClose := false }, false)
  else (c1, true)

/-- `onError` handler: clear `isConnectingFlag`; the `onDisconnect`
callback fires unless an intentional close is in progress.  Note the
source neither drops `ws` nor clears `intentionalClose` here. -/
def Conn.onErrorEvt (c : Conn) : Conn × Bool :=
  ({ c with isConnectingFlag := false }, !c.intentionalClose)

/-- `isConnected()`: `!!ws && !isConnectingFlag`. -/
def Conn.isConnected (c : Conn) : Bool := c.ws && !c.isConnectingFlag

/-! ## Inbound frame handling (`onMessage` builders) -/

/-- Result of `JSON.parse` on a frame, modelled as an opaque tagging of
the raw text (the parser itself is a JS builtin, not repository code). -/
inductive Json
  | parsed (raw : String)
deriving DecidableEq

/-- Model of the `JSON.parse` builtin. -/
def JSON.parse (s : String) : Json := Json.parsed s

/-- Observable effects of one inbound frame on an adapter. -/
structure MsgEffects where
  wireSent : List String
  forwarded : Option Json
  parseAttempted : Bool
deriving DecidableEq

/-- The `onMessage` handler installed by `createAppConnection`:
a literal `"ping"` frame is answered with one `"pong"` and no JSON parse;
every other frame is JSON-parsed and forwarded to the message callback. -/
def appOnMessage (data : String) : MsgEffects :=
  if data = "ping" then
    { wireSent := ["pong"], forwarded := none, parseAttempted := false }
  else
    { wireSent := [], forwarded := some (JSON.parse data), parseAttempted := true }

/-- The `onMessage` handler installed by `createFallbackConnection`
(same logic, on the fallback adapter). -/
def fallbackOnMessage (data : String) : MsgEffects :=
  if data = "ping" then
    { wireSent := ["pong"], forwarded := none, parseAttempted := false }
  else
    { wireSent := [], forwarded := some (JSON.parse data), parseAttempted := true }

/-! ## Pending request table (`reqs` in `setupProviderConnection`) -/

/-- A page request `{id, method, params?}`; `id` is `none` when the field
is absent. -/
structure Request where
  id : Option Nat
  method : String
deriving DecidableEq

/-- A backend response; only its `id` matters to the table. -/
structure Response where
  id : Option Nat
deriving DecidableEq

/-- `Map.set` on the request table (overwrite semantics). -/
def reqsSet (reqs : List (Nat × Request)) (k : Nat) (v : Request) : List (Nat × Request) :=
  (k, v) :: reqs.filter (fun p => decide (p.1 ≠ k))

/-- `Map.get` on the request table. -/
def reqsGet (reqs : List (Nat × Request)) (k : Nat) : Option Request :=
  (reqs.find? (fun p => decide (p.1 = k))).map Prod.snd

/-- `Map.has` on the request table. -/
def reqsHas (reqs : List (Nat × Request)) (k : Nat) : Bool :=
  reqs.any (fun p => decide (p.1 = k))

/-- Effect of the `port.onMessage` listener on the table:
`if (req.id) reqs.set(req.id, req)` — note JS truthiness: an absent or
zero id is not stored. -/
def portOnMessageReqs (reqs : List (Nat × Request)) (req : Request) : List (Nat × Request) :=
  match req.id with
  | some i => if i ≠ 0 then reqsSet reqs i req else reqs
  | none => reqs

/-- Effect of `handleMessage` on the table: when the response has an id the
source only calls `reqs.get(resp.id)` for logging; it never deletes.
Returns the unchanged table and the looked-up request. -/
def handleMessageReqs (reqs : List (Nat × Request)) (resp : Response) :
    List (Nat × Request) × Option Request :=
  match resp.id with
  | some i => (reqs, reqsGet reqs i)
  | none => (reqs, none)

/-! ## Per-tab session (`setupProviderConnection` in the background entry)

The session closure owns `appConnection`, `fallbackConnection`,
`usingFallback`, `appCheckTimer`, `pendingMessages` and `isInitializing`.
`await` points become start/resume event pairs:
  * `initializeConnection` awaits `checkAppAvailable` → `awaitInitProbe`
    until an `appProbeRes` event resumes it;
  * `switchToFallbackConnection` awaits `checkFallbackAvailable` →
    `awaitFbProbe` until an `fbProbeRes` event resumes it (`fbFromInit`
    records whether the `finally` of `initializeConnection` is still pending);
  * the periodic app check awaits `checkAppAvailable` →
    `awaitTimerProbe` / `timerProbeRes`.
Ghost fields: `deliveredApp` / `deliveredFb` are the messages handed to
the respective backend sockets, `initStarts` counts how many times
`initializeConnection` passed its single-flight guard, `fbProbesStarted`
counts `checkFallbackAvailable` probes. -/

/-- Session state. -/
structure Sess where
  appConnection : Option Conn
  fallbackConnection : Option Conn
  usingFallback : Bool
  pendingMessages : List String
  isInitializing : Bool
  appCheckTimer : Bool
  awaitInitProbe : Bool
  awaitFbProbe : Bool
  fbFromInit : Bool
  awaitTimerProbe : Bool
  retryScheduled : Bool
  deliveredApp : List String
  deliveredFb : List String
  initStarts : Nat
  fbProbesStarted : Nat
  notif : NotifState
deriving DecidableEq

/-- Fresh session: no adapters, empty queue, nothing in flight. -/
def Sess.init : Sess :=
  { appConnection := none
    fallbackConnection := none
    usingFallback := false
    pendingMessages := []
    isInitializing := false
    appCheckTimer := false
    awaitInitProbe := false
    awaitFbProbe := false
    fbFromInit := false
    awaitTimerProbe := false
    retryScheduled := false
    deliveredApp := []
    deliveredFb := []
    initStarts := 0
    fbProbesStarted := 0
    notif := NotifState.init }

/-- The state reached from a fresh session by queueing `msgs` while no
backend is active: the messages are pending and a single probe/connect
cycle has started (meaningful for `msgs ≠ []`). -/
def Sess.afterSends (msgs : List String) : Sess :=
  { Sess.init with
      pendingMessages := msgs
      isInitializing := true
      awaitInitProbe := true
      initStarts := 1 }

/-- Synchronous prefix of `initializeConnection`: the single-flight guard
(`if (isInitializing) return; isInitializing = true;`) followed by
starting the `checkAppAvailable` probe. -/
def initConnectionEntry (s : Sess) : Sess :=
  if s.isInitializing then s
  else { s with isInitializing := true, awaitInitProbe := true, initStarts := s.initStarts + 1 }

/-- Synchronous prefix of `switchToFallbackConnection`: start the
`checkFallbackAvailable` probe.  `fromInit` records whether the call was
awaited by `initializeConnection` (whose `finally` must still run). -/
def switchToFallbackStart (s : Sess) (fromInit : Bool) : Sess :=
  { s with awaitFbProbe := true, fbFromInit := fromInit,
           fbProbesStarted := s.fbProbesStarted + 1 }

/-- Rest of `switchToFallbackConnection` once `checkFallbackAvailable`
resolved with `ok`.  Unavailable: set state "disconnected" and schedule
the 1s retry.  Available: close the app adapter (`appConnection.close()`
discards its internal queue), switch to fallback, create the fallback
adapter, flush `pendingMessages` onto it in order, clear them, start the
periodic app check.  When the call came from `initializeConnection`, its
`finally { isInitializing = false }` runs now. -/
def switchToFallbackResume (s : Sess) (ok : Bool) : Sess :=
  if ok then
    let s1 : Sess := { s with appConnection := none, usingFallback := true }
    let r := Conn.sendAll Conn.create s1.pendingMessages
    let s2 : Sess :=
      { s1 with fallbackConnection := some r.1
                deliveredFb := s1.deliveredFb ++ r.2
                pendingMessages := []
                appCheckTimer := true }
    if s2.fbFromInit then { s2 with isInitializing := false, fbFromInit := false } else s2
  else
    let r := setConnectionState s.notif ConnState.disconnected
    let s1 : Sess := { s with notif := r.state, retryScheduled := true }
    if s1.fbFromInit then { s1 with isInitializing := false, fbFromInit := false } else s1

/-- Rest of `initializeConnection` once `checkAppAvailable` resolved with
`ok`.  Available: create the app adapter, flush `pendingMessages` onto it
in order, clear them, and run the `finally`.  Unavailable: fall through
to `switchToFallbackConnection` (still inside the `try`). -/
def initConnectionResume (s : Sess) (ok : Bool) : Sess :=
  let s := { s with awaitInitProbe := false }
  if ok then
    let r := Conn.sendAll Conn.create s.pendingMessages
    { s with appConnection := some r.1
             deliveredApp := s.deliveredApp ++ r.2
             pendingMessages := []
             isInitializing := false }
  else
    switchToFallbackStart s true

/-- `switchToAppConnection`: close the fallback adapter (discarding its
internal queue), leave fallback mode, stop the periodic check, create a
fresh app adapter.  The source flushes nothing here. -/
def switchToAppConnection (s : Sess) : Sess :=
  { s with fallbackConnection := none
           usingFallback := false
           appCheckTimer := false
           appConnection := some Conn.create }

/-- `handleFallbackDisconnect`: set state "disconnected" and schedule the
1s reconnect retry. -/
def handleFallbackDisconnect (s : Sess) : Sess :=
  let r := setConnectionState s.notif ConnState.disconnected
  { s with notif := r.state, retryScheduled := true }

/-- `sendMessage`: route to the fallback adapter when `usingFallback` and
it exists, else to the app adapter when it exists, else queue on
`pendingMessages` and trigger `initializeConnection`. -/
def sendMessage (s : Sess) (msg : String) : Sess :=
  if s.usingFallback && s.fallbackConnection.isSome then
    let c := s.fallbackConnection.getD Conn.create
    let r := c.send msg
    { s with fallbackConnection := some r.1, deliveredFb := s.deliveredFb ++ r.2 }
  else if s.appConnection.isSome then
    let c := s.appConnection.getD Conn.create
    let r := c.send msg
    { s with appConnection := some r.1, deliveredApp := s.deliveredApp ++ r.2 }
  else
    initConnectionEntry { s with pendingMessages := s.pendingMessages ++ [msg] }

/-- Session events: page traffic, probe resolutions, socket lifecycle
events of either adapter, the periodic app-check timer, the scheduled
retry, and page/tab disconnect. -/
inductive Ev
  | pageSend (msg : String)
  | appProbeRes (ok : Bool)
  | fbProbeRes (ok : Bool)
  | appOpen
  | appCloseEvt
  | appErrorEvt
  | fbOpen
  | fbCloseEvt
  | fbErrorEvt
  | timerTick
  | timerProbeRes (ok : Bool)
  | retryFire
  | portDisconnect
deriving DecidableEq

/-- One session step.  Socket events on an adapter the session no longer
holds, and probe resolutions nothing awaits, are no-ops. -/
def step (s : Sess) (e : Ev) : Sess :=
  match e with
  | .pageSend msg => sendMessage s msg
  | .appProbeRes ok =>
    if s.awaitInitProbe then initConnectionResume s ok else s
  | .fbProbeRes ok =>
    if s.awaitFbProbe then switchToFallbackResume { s with awaitFbProbe := false } ok else s
  | .appOpen =>
    match s.appConnection with
    | some c =>
      let r := c.onOpenEvt
      let n := setConnectionState s.notif ConnState.connected
      { s with appConnection := some r.1
               deliveredApp := s.deliveredApp ++ r.2
               notif := n.state }
    | none => s
  | .appCloseEvt =>
    match s.appConnection with
    | some c =>
      let r := c.onCloseEvt
      let s1 : Sess := { s with appConnection := some r.1 }
      if r.2 then switchToFallbackStart s1 false else s1
    | none => s
  | .appErrorEvt =>
    match s.appConnection with
    | some c =>
      let r := c.onErrorEvt
      let s1 : Sess := { s with appConnection := some r.1 }
      if r.2 then switchToFallbackStart s1 false else s1
    | none => s
  | .fbOpen =>
    match s.fallbackConnection with
    | some c =>
      let r := c.onOpenEvt
      let n := setConnectionState s.notif ConnState.connected
      { s with fallbackConnection := some r.1
               deliveredFb := s.deliveredFb ++ r.2
               notif := n.state }
    | none => s
  | .fbCloseEvt =>
    match s.fallbackConnection with
    | some c =>
      let r := c.onCloseEvt
      let s1 : Sess := { s with fallbackConnection := some r.1 }
      if r.2 then handleFallbackDisconnect s1 else s1
    | none => s
  | .fbErrorEvt =>
    match s.fallbackConnection with
    | some c =>
      let r := c.onErrorEvt
      let s1 : Sess := { s with fallbackConnection := some r.1 }
      if r.2 then handleFallbackDisconnect s1 else s1
    | none => s
  | .timerTick =>
    if s.appCheckTimer then
      if !s.usingFallback then { s with appCheckTimer := false }
      else { s with awaitTimerProbe := true }
    else s
  | .timerProbeRes ok =>
    if s.awaitTimerProbe then
      let s1 : Sess := { s with awaitTimerProbe := false }
      if ok && s1.usingFallback then switchToAppConnection s1 else s1
    else s
  | .retryFire =>
    if s.retryScheduled then
      let s1 : Sess := { s with retryScheduled := false }
      let appUp := match s1.appConnection with | some c => c.isConnected | none => false
      let fbUp := match s1.fallbackConnection with | some c => c.isConnected | none => false
      if !appUp && !fbUp then initConnectionEntry s1 else s1
    else s
  | .portDisconnect =>
    { s with appCheckTimer := false
             appConnection := none
             fallbackConnection := none
             pendingMessages := [] }

/-- Run a session from `s` over a list of events. -/
def run (s : Sess) (evs : List Ev) : Sess := evs.foldl step s

/-! ## `checkConnection` (connectionState.ts)

The probe opens a throwaway socket and installs a timeout plus `onopen`,
`onerror` and `onclose` handlers, all funnelled through the `done`
helper, which is guarded by a `resolved` flag.  The promise executor
never calls `reject`. -/

/-- The callbacks that can fire inside `checkConnection`, in any order
and any number of times. -/
inductive ProbeEv
  | timeoutFires
  | wsOpen
  | wsError
  | wsClose
deriving DecidableEq

/-- State of one `checkConnection` call: the `resolved` guard, the value
the promise resolved with (ghost), resolve/reject call counts (ghost)
and the global connection state it mutates. -/
structure CheckState where
  resolved : Bool
  value : Option ConnState
  resolveCount : Nat
  rejectCount : Nat
  notif : NotifState
deriving DecidableEq

/-- The `done` helper: at most once, clear the timeout, set the global
connection state and resolve. -/
def done (s : CheckState) (state : ConnState) : CheckState :=
  if s.resolved then s
  else
    let r := setConnectionState s.notif state
    { s with resolved := true
             notif := r.state
             value := some state
             resolveCount := s.resolveCount + 1 }

/-- One callback firing: the timeout closes the socket and reports
"disconnected"; `onopen` reports "connected" (then closes the socket);
`onerror` and `onclose` report "disconnected". -/
def checkStep (s : CheckState) (e : ProbeEv) : CheckState :=
  match e with
  | .timeoutFires => done s ConnState.disconnected
  | .wsOpen => done s ConnState.connected
  | .wsError => done s ConnState.disconnected
  | .wsClose => done s ConnState.disconnected

/-- Run one `checkConnection` call (global state `g` at entry) over a
sequence of callback firings. -/
def runCheck (g : NotifState) (evs : List ProbeEv) : CheckState :=
  evs.foldl checkStep
    { resolved := false, value := none, resolveCount := 0, rejectCount := 0, notif := g }

/-! ## Lemmas: `setConnectionState` notification behaviour -/

theorem runStates_append (s : NotifState) (pre : List ConnState) (c : ConnState) :
    runStates s (pre ++ [c]) = (setConnectionState (runStates s pre) c).state := by
  simp [runStates, List.foldl_append]

theorem sinceLastConnected_concat (pre : List ConnState) (c : ConnState) :
    sinceLastConnected (pre ++ [c])
      = if c = ConnState.connected then [] else c :: sinceLastConnected pre := by
  by_cases h : c = ConnState.connected <;>
    simp [sinceLastConnected, List.reverse_append, List.takeWhile_cons, h]

theorem notMem_since_getLast (l : List ConnState)
    (h : ConnState.disconnected ∉ sinceLastConnected l) :
    l.getLast?.getD ConnState.unknown ≠ ConnState.disconnected := by
  rcases List.eq_nil_or_concat l with rfl | ⟨L, a, rfl⟩
  · simp [NotifState.init]
  · rw [List.concat_eq_append] at *
    rw [List.getLast?_concat]
    rw [sinceLastConnected_concat] at h
    by_cases ha : a = ConnState.connected
    · simp [ha]
    · rw [if_neg ha] at h
      simp only [List.mem_cons, not_or] at h
      simp [Option.getD]
      intro had
      exact h.1 had.symm

theorem runStates_invariant (pre : List ConnState) :
    (runStates NotifState.init pre).hasShownNotification
        = decide (ConnState.disconnected ∈ sinceLastConnected pre)
      ∧ (runStates NotifState.init pre).globalConnectionState
        = pre.getLast?.getD ConnState.unknown := by
  induction pre using List.reverseRecOn with
  | nil => simp [runStates, NotifState.init, sinceLastConnected]
  | append_singleton l a ih =>
    obtain ⟨ih1, ih2⟩ := ih
    rw [runStates_append]
    refine ⟨?_, by simp [setConnectionState, List.getLast?_concat]⟩
    rw [sinceLastConnected_concat]
    cases a with
    | connected => simp [setConnectionState]
    | unknown =>
      simp only [setConnectionState, if_neg (by simp : ¬ ConnState.unknown = ConnState.connected)]
      simp [ih1]
    | disconnected =>
      simp only [setConnectionState,
        if_neg (by simp : ¬ ConnState.disconnected = ConnState.connected)]
      by_cases hs : (runStates NotifState.init l).hasShownNotification = true
      · simp [hs, hs ▸ ih1]
      · rw [Bool.not_eq_true] at hs
        have hmem : ConnState.disconnected ∉ sinceLastConnected l := by
          intro hm
          rw [ih1] at hs
          simp [hm] at hs
        have hgs := notMem_since_getLast l hmem
        rw [← ih2] at hgs
        simp [hs, hgs]

theorem notified_char (pre : List ConnState) (c : ConnState) :
    (setConnectionState (runStates NotifState.init pre) c).notified
      = firstDisconnectSince pre c := by
  obtain ⟨h1, h2⟩ := runStates_invariant pre
  by_cases hc : c = ConnState.disconnected
  · subst hc
    by_cases hm : ConnState.disconnected ∈ sinceLastConnected pre
    · have hs : (runStates NotifState.init pre).hasShownNotification = true := by
        rw [h1]; simp [hm]
      simp [setConnectionState, firstDisconnectSince, hs, hm]
    · have hs : (runStates NotifState.init pre).hasShownNotification = false := by
        rw [h1]; simp [hm]
      have hgs := notMem_since_getLast pre hm
      rw [← h2] at hgs
      simp [setConnectionState, firstDisconnectSince, hs, hm, hgs]
  · simp [setConnectionState, firstDisconnectSince, hc]

theorem notifyTrace_spec (cs : List ConnState) :
    ∀ pre, notifyTrace (runStates NotifState.init pre) cs = specNotifies pre cs := by
  induction cs with
  | nil => intro pre; rfl
  | cons c cs ih =>
    intro pre
    show (setConnectionState (runStates NotifState.init pre) c).notified
        :: notifyTrace (setConnectionState (runStates NotifState.init pre) c).state cs
      = firstDisconnectSince pre c :: specNotifies (pre ++ [c]) cs
    rw [notified_char, ← runStates_append, ih (pre ++ [c])]

/-- Claim C4: for every sequence of `setConnectionState` calls, the
one-shot user notification is raised exactly on the first transition into
"disconnected" since the last "connected" (never twice without an
intervening "connected"), and the one-shot flag resets only when the
state becomes "connected" again. -/
theorem c4_one_shot_notification :
    (∀ calls : List ConnState,
      notifyTrace NotifState.init calls = specNotifies [] calls) ∧
    (∀ (s : NotifState) (c : ConnState),
      s.hasShownNotification = true →
      (setConnectionState s c).state.hasShownNotification = false →
      c = ConnState.connected) := by
  constructor
  · intro calls
    have h := notifyTrace_spec calls []
    simpa [runStates] using h
  · intro s c hshown hreset
    by_contra hc
    simp [setConnectionState, hc, hshown] at hreset

/-- Witness for C4 at a concrete call sequence and a concrete reset. -/
theorem c4_one_shot_notification_witness :
    notifyTrace NotifState.init
        [ConnState.disconnected, ConnState.disconnected, ConnState.connected,
          ConnState.disconnected]
      = specNotifies []
        [ConnState.disconnected, ConnState.disconnected, ConnState.connected,
          ConnState.disconnected]
    ∧ ConnState.connected = ConnState.connected :=
  ⟨c4_one_shot_notification.1
      [ConnState.disconnected, ConnState.disconnected, ConnState.connected,
        ConnState.disconnected],
   c4_one_shot_notification.2 ⟨ConnState.unknown, true⟩ ConnState.connected (by decide)
      (by decide)⟩

/-! ## Lemmas: adapter flush loop -/

theorem sendAll_connecting (msgs : List String) :
    ∀ q, Conn.sendAll ⟨true, true, false, q⟩ msgs = (⟨true, true, false, q ++ msgs⟩, []) := by
  induction msgs with
  | nil => intro q; simp [Conn.sendAll]
  | cons m ms ih =>
    intro q
    simp [Conn.sendAll, Conn.send, Conn.initWebSocket, ih (q ++ [m])]

theorem sendAll_create_cons (m : String) (ms : List String) :
    Conn.sendAll Conn.create (m :: ms) = (⟨true, true, false, m :: ms⟩, []) := by
  simp [Conn.sendAll, Conn.send, Conn.create, Conn.initWebSocket, sendAll_connecting ms [m]]

theorem sendAll_create_queue (msgs : List String) :
    (Conn.sendAll Conn.create msgs).1.queue = msgs ∧ (Conn.sendAll Conn.create msgs).2 = [] := by
  cases msgs with
  | nil => simp [Conn.sendAll, Conn.create]
  | cons m ms => simp [sendAll_create_cons]

/-- Counterexample for C6 as stated: after an intentional `close()`, the
socket *error* event does not clear the intentional flag (the `onError` of the source only skips the disconnect callback), although the claim says
the resulting close or error event clears it. -/
theorem c6_counterexample_error_keeps_flag :
    ((Conn.close { Conn.create with ws := true }).onErrorEvt.1.intentionalClose = true) ∧
    ((Conn.close { Conn.create with ws := true }).onErrorEvt.2 = false) := by
  decide

/-- Claim C6 (amended): `close()` marks the close intentional; the
resulting socket *close* event clears the flag and takes no further
action (no disconnect callback, hence no failover, retry or
disconnected-state notification); an *error* event during an intentional
close likewise invokes no callback, but leaves the flag set (it is
cleared by the subsequent close event). -/
theorem c6_amended_intentional_close :
    ∀ c : Conn, c.ws = true →
      (c.close.intentionalClose = true ∧
       c.close.onCloseEvt.2 = false ∧
       c.close.onCloseEvt.1.intentionalClose = false ∧
       c.close.onErrorEvt.2 = false ∧
       c.close.onErrorEvt.1.intentionalClose = true) := by
  intro c h
  simp [Conn.close, h, Conn.onCloseEvt, Conn.onErrorEvt]

/-- Witness for the amended C6 at a concrete open connection. -/
theorem c6_amended_intentional_close_witness :
    ({ Conn.create with ws := true } : Conn).ws = true ∧
    (({ Conn.create with ws := true } : Conn).close.intentionalClose = true ∧
     ({ Conn.create with ws := true } : Conn).close.onCloseEvt.2 = false ∧
     ({ Conn.create with ws := true } : Conn).close.onCloseEvt.1.intentionalClose = false ∧
     ({ Conn.create with ws := true } : Conn).close.onErrorEvt.2 = false ∧
     ({ Conn.create with ws := true } : Conn).close.onErrorEvt.1.intentionalClose = true) :=
  ⟨rfl, c6_amended_intentional_close { Conn.create with ws := true } rfl⟩

/-- Claim C7: a literal `"ping"` frame on either adapter is answered by
exactly one `"pong"` frame on the same adapter with no JSON parse
attempted; every other frame is parsed as JSON and forwarded to the
message callback, with nothing sent back. -/
theorem c7_ping_pong :
    ∀ data : String,
      (data = "ping" →
        ((appOnMessage data).wireSent = ["pong"] ∧
         (appOnMessage data).parseAttempted = false ∧
         (appOnMessage data).forwarded = none ∧
         (fallbackOnMessage data).wireSent = ["pong"] ∧
         (fallbackOnMessage data).parseAttempted = false ∧
         (fallbackOnMessage data).forwarded = none)) ∧
      (data ≠ "ping" →
        ((appOnMessage data).wireSent = [] ∧
         (appOnMessage data).parseAttempted = true ∧
         (appOnMessage data).forwarded = some (JSON.parse data) ∧
         (fallbackOnMessage data).wireSent = [] ∧
         (fallbackOnMessage data).parseAttempted = true ∧
         (fallbackOnMessage data).forwarded = some (JSON.parse data))) := by
  intro data
  constructor
  · intro h; simp [appOnMessage, fallbackOnMessage, h]
  · intro h; simp [appOnMessage, fallbackOnMessage, h]

/-- Witness for C7 at a literal ping frame and at an ordinary frame. -/
theorem c7_ping_pong_witness :
    ((appOnMessage "ping").wireSent = ["pong"] ∧
     (appOnMessage "ping").parseAttempted = false ∧
     (appOnMessage "ping").forwarded = none ∧
     (fallbackOnMessage "ping").wireSent = ["pong"] ∧
     (fallbackOnMessage "ping").parseAttempted = false ∧
     (fallbackOnMessage "ping").forwarded = none) ∧
    ((appOnMessage "hello").wireSent = [] ∧
     (appOnMessage "hello").parseAttempted = true ∧
     (appOnMessage "hello").forwarded = some (JSON.parse "hello") ∧
     (fallbackOnMessage "hello").wireSent = [] ∧
     (fallbackOnMessage "hello").parseAttempted = true ∧
     (fallbackOnMessage "hello").forwarded = some (JSON.parse "hello")) :=
  ⟨(c7_ping_pong "ping").1 rfl, (c7_ping_pong "hello").2 (by decide)⟩

/-! ## Lemmas: session runs -/

theorem run_append (s : Sess) (evs1 evs2 : List Ev) :
    run s (evs1 ++ evs2) = run (run s evs1) evs2 := by
  simp [run, List.foldl_append]

theorem run_sends_queueing (msgs : List String) :
    ∀ s : Sess, s.appConnection = none → s.fallbackConnection = none →
      s.usingFallback = false → s.isInitializing = true →
      run s (msgs.map Ev.pageSend) = { s with pendingMessages := s.pendingMessages ++ msgs } := by
  induction msgs with
  | nil => intro s _ _ _ _; simp [run]
  | cons m ms ih =>
    intro s h1 h2 h3 h4
    have hstep : step s (Ev.pageSend m)
        = { s with pendingMessages := s.pendingMessages ++ [m] } := by
      simp [step, sendMessage, h1, h3, initConnectionEntry, h4]
    have hrun : run s ((m :: ms).map Ev.pageSend)
        = run (step s (Ev.pageSend m)) (ms.map Ev.pageSend) := rfl
    rw [hrun, hstep,
      ih { s with pendingMessages := s.pendingMessages ++ [m] } h1 h2 h3 h4]
    simp

theorem step_init_send (m : String) :
    step Sess.init (Ev.pageSend m) = Sess.afterSends [m] := rfl

theorem run_init_sends (m : String) (ms : List String) :
    run Sess.init ((m :: ms).map Ev.pageSend) = Sess.afterSends (m :: ms) := by
  have hrun : run Sess.init ((m :: ms).map Ev.pageSend)
      = run (step Sess.init (Ev.pageSend m)) (ms.map Ev.pageSend) := rfl
  rw [hrun, step_init_send, run_sends_queueing ms _ rfl rfl rfl rfl]
  rfl

/-- Claim C1: messages sent by the page while no backend is active are
queued and, once the session connects to a backend (App when the probe
succeeds, Fallback otherwise), delivered to that backend in the original
enqueue order, each exactly once — and to that backend only. -/
theorem c1_pending_queue_flush_order :
    ∀ msgs : List String,
      (run Sess.init (msgs.map Ev.pageSend ++ [Ev.appProbeRes true, Ev.appOpen])).deliveredApp
          = msgs ∧
      (run Sess.init (msgs.map Ev.pageSend ++ [Ev.appProbeRes true, Ev.appOpen])).deliveredFb
          = [] ∧
      (run Sess.init
          (msgs.map Ev.pageSend ++ [Ev.appProbeRes false, Ev.fbProbeRes true, Ev.fbOpen])).deliveredFb
          = msgs ∧
      (run Sess.init
          (msgs.map Ev.pageSend ++ [Ev.appProbeRes false, Ev.fbProbeRes true, Ev.fbOpen])).deliveredApp
          = [] := by
  intro msgs
  cases msgs with
  | nil => exact ⟨rfl, rfl, rfl, rfl⟩
  | cons m ms =>
    rw [run_append, run_append, run_init_sends]
    refine ⟨?_, ?_, ?_, ?_⟩ <;>
      simp [run, step, Sess.afterSends, Sess.init, initConnectionResume,
        switchToFallbackStart, switchToFallbackResume, sendAll_create_cons,
        Conn.onOpenEvt, setConnectionState]

/-- Claim C3: a page send arriving while an initialization is already in
flight never starts a second probe/connect cycle: the single-flight
guard leaves the cycle counter, the probe bookkeeping and the in-flight
flag untouched. -/
theorem c3_single_flight :
    ∀ (s : Sess) (m : String), s.isInitializing = true →
      ((step s (Ev.pageSend m)).initStarts = s.initStarts ∧
       (step s (Ev.pageSend m)).isInitializing = true ∧
       (step s (Ev.pageSend m)).fbProbesStarted = s.fbProbesStarted ∧
       (step s (Ev.pageSend m)).awaitInitProbe = s.awaitInitProbe) := by
  intro s m h
  by_cases hfb : (s.usingFallback && s.fallbackConnection.isSome) = true
  · simp [step, sendMessage, hfb, h]
  · by_cases happ : s.appConnection.isSome = true
    · simp [step, sendMessage, hfb, happ, h]
    · simp [step, sendMessage, hfb, happ, initConnectionEntry, h]

/-- Witness for C3 at a concrete in-flight state. -/
theorem c3_single_flight_witness :
    ({ Sess.init with isInitializing := true } : Sess).isInitializing = true ∧
    ((step { Sess.init with isInitializing := true } (Ev.pageSend "x")).initStarts
        = ({ Sess.init with isInitializing := true } : Sess).initStarts ∧
     (step { Sess.init with isInitializing := true } (Ev.pageSend "x")).isInitializing = true ∧
     (step { Sess.init with isInitializing := true } (Ev.pageSend "x")).fbProbesStarted
        = ({ Sess.init with isInitializing := true } : Sess).fbProbesStarted ∧
     (step { Sess.init with isInitializing := true } (Ev.pageSend "x")).awaitInitProbe
        = ({ Sess.init with isInitializing := true } : Sess).awaitInitProbe) :=
  ⟨rfl, c3_single_flight { Sess.init with isInitializing := true } "x" rfl⟩

/-- Claim C5: on initialization, when the App probe reports reachable the
session connects to App: it never creates a Fallback adapter, never
enters fallback mode and never even starts a Fallback probe. -/
theorem c5_app_preferred :
    ∀ msgs : List String, msgs ≠ [] →
      ((run Sess.init (msgs.map Ev.pageSend ++ [Ev.appProbeRes true])).appConnection.isSome
          = true ∧
       (run Sess.init (msgs.map Ev.pageSend ++ [Ev.appProbeRes true])).usingFallback = false ∧
       (run Sess.init (msgs.map Ev.pageSend ++ [Ev.appProbeRes true])).fallbackConnection
          = none ∧
       (run Sess.init (msgs.map Ev.pageSend ++ [Ev.appProbeRes true])).fbProbesStarted = 0 ∧
       (run Sess.init (msgs.map Ev.pageSend ++ [Ev.appProbeRes true])).deliveredFb = []) := by
  intro msgs h
  cases msgs with
  | nil => exact absurd rfl h
  | cons m ms =>
    rw [run_append, run_init_sends]
    refine ⟨?_, ?_, ?_, ?_, ?_⟩ <;>
      simp [run, step, Sess.afterSends, Sess.init, initConnectionResume, sendAll_create_cons]

/-- Witness for C5 at a concrete one-message send. -/
theorem c5_app_preferred_witness :
    (["a"] : List String) ≠ [] ∧
    ((run Sess.init ((["a"] : List String).map Ev.pageSend ++ [Ev.appProbeRes true])).appConnection.isSome
        = true ∧
     (run Sess.init ((["a"] : List String).map Ev.pageSend ++ [Ev.appProbeRes true])).usingFallback
        = false ∧
     (run Sess.init ((["a"] : List String).map Ev.pageSend ++ [Ev.appProbeRes true])).fallbackConnection
        = none ∧
     (run Sess.init ((["a"] : List String).map Ev.pageSend ++ [Ev.appProbeRes true])).fbProbesStarted
        = 0 ∧
     (run Sess.init ((["a"] : List String).map Ev.pageSend ++ [Ev.appProbeRes true])).deliveredFb
        = []) :=
  ⟨by decide, c5_app_preferred ["a"] (by decide)⟩

/-- Counterexample for C2 as stated: a message accepted by the session
can be dropped at an App→Fallback switch.  The page sends `"m1"`; the
App probe succeeds, so `"m1"` moves into the internal queue of the app adapter (the socket is still connecting); the socket errors, the Fallback
probe succeeds, and `switchToFallbackConnection` closes the app adapter
— whose `close()` clears its queue.  Afterwards the session runs on
Fallback, yet `"m1"` was never put on either wire, is in no queue, and
was not requeued onto the new active adapter. -/
theorem c2_counterexample_message_dropped :
    (run Sess.init
        [Ev.pageSend "m1", Ev.appProbeRes true, Ev.appErrorEvt, Ev.fbProbeRes true]).usingFallback
        = true ∧
    (run Sess.init
        [Ev.pageSend "m1", Ev.appProbeRes true, Ev.appErrorEvt, Ev.fbProbeRes true]).appConnection
        = none ∧
    (run Sess.init
        [Ev.pageSend "m1", Ev.appProbeRes true, Ev.appErrorEvt, Ev.fbProbeRes true]).pendingMessages
        = [] ∧
    (run Sess.init
        [Ev.pageSend "m1", Ev.appProbeRes true, Ev.appErrorEvt, Ev.fbProbeRes true]).deliveredApp
        = [] ∧
    (run Sess.init
        [Ev.pageSend "m1", Ev.appProbeRes true, Ev.appErrorEvt, Ev.fbProbeRes true]).deliveredFb
        = [] ∧
    ((run Sess.init
        [Ev.pageSend "m1", Ev.appProbeRes true, Ev.appErrorEvt, Ev.fbProbeRes true]).fallbackConnection.map
          Conn.queue)
        = some [] := by
  refine ⟨rfl, rfl, rfl, rfl, rfl, rfl⟩

/-- Claim C2 (amended): when a session switches backends the previously
active adapter is closed and dropped before the new one becomes active,
and a page message is never routed to both backends (a send in fallback
mode touches nothing of the App side, and a send outside fallback mode
touches nothing of the Fallback side).  At an App→Fallback switch the
*session-level* pending queue is requeued onto the new active adapter in
its original order — but messages buffered inside the internal queue
of the closed adapter are discarded, and a Fallback→App switch requeues
nothing. -/
theorem c2_amended_switch :
    (∀ s : Sess, s.awaitFbProbe = true →
      ((step s (Ev.fbProbeRes true)).appConnection = none ∧
       (step s (Ev.fbProbeRes true)).usingFallback = true ∧
       ((step s (Ev.fbProbeRes true)).fallbackConnection.map Conn.queue)
          = some s.pendingMessages ∧
       (step s (Ev.fbProbeRes true)).pendingMessages = [] ∧
       (step s (Ev.fbProbeRes true)).deliveredApp = s.deliveredApp ∧
       (step s (Ev.fbProbeRes true)).deliveredFb = s.deliveredFb)) ∧
    (∀ s : Sess, s.awaitTimerProbe = true → s.usingFallback = true →
      ((step s (Ev.timerProbeRes true)).fallbackConnection = none ∧
       (step s (Ev.timerProbeRes true)).usingFallback = false ∧
       (step s (Ev.timerProbeRes true)).appConnection = some Conn.create ∧
       (step s (Ev.timerProbeRes true)).appCheckTimer = false ∧
       (step s (Ev.timerProbeRes true)).pendingMessages = s.pendingMessages ∧
       (step s (Ev.timerProbeRes true)).deliveredApp = s.deliveredApp ∧
       (step s (Ev.timerProbeRes true)).deliveredFb = s.deliveredFb)) ∧
    (∀ (s : Sess) (m : String), (s.usingFallback && s.fallbackConnection.isSome) = true →
      ((step s (Ev.pageSend m)).appConnection = s.appConnection ∧
       (step s (Ev.pageSend m)).deliveredApp = s.deliveredApp)) ∧
    (∀ (s : Sess) (m : String), (s.usingFallback && s.fallbackConnection.isSome) = false →
      ((step s (Ev.pageSend m)).fallbackConnection = s.fallbackConnection ∧
       (step s (Ev.pageSend m)).deliveredFb = s.deliveredFb)) := by
  refine ⟨?_, ?_, ?_, ?_⟩
  · intro s h
    have hq := sendAll_create_queue s.pendingMessages
    by_cases hf : s.fbFromInit = true <;>
      simp [step, h, switchToFallbackResume, hf, hq.1, hq.2]
  · intro s h1 h2
    simp [step, h1, h2, switchToAppConnection]
  · intro s m h
    simp [step, sendMessage, h]
  · intro s m h
    by_cases happ : s.appConnection.isSome = true
    · simp [step, sendMessage, h, happ]
    · simp [step, sendMessage, h, happ, initConnectionEntry]
      by_cases hi : s.isInitializing = true <;> simp [hi]

/-- Witness for the amended C2 at concrete states. -/
theorem c2_amended_switch_witness :
    (({ Sess.init with awaitFbProbe := true, pendingMessages := ["a"] } : Sess).awaitFbProbe
        = true ∧
     (step { Sess.init with awaitFbProbe := true, pendingMessages := ["a"] }
        (Ev.fbProbeRes true)).appConnection = none ∧
     ((step { Sess.init with awaitFbProbe := true, pendingMessages := ["a"] }
        (Ev.fbProbeRes true)).fallbackConnection.map Conn.queue) = some ["a"]) ∧
    (({ Sess.init with awaitTimerProbe := true, usingFallback := true, fallbackConnection := some Conn.create, appCheckTimer := true } : Sess).awaitTimerProbe
        = true ∧
     (step { Sess.init with awaitTimerProbe := true, usingFallback := true, fallbackConnection := some Conn.create, appCheckTimer := true }
        (Ev.timerProbeRes true)).fallbackConnection = none ∧
     (step { Sess.init with awaitTimerProbe := true, usingFallback := true, fallbackConnection := some Conn.create, appCheckTimer := true }
        (Ev.timerProbeRes true)).appConnection = some Conn.create ∧
     (step { Sess.init with awaitTimerProbe := true, usingFallback := true, fallbackConnection := some Conn.create, appCheckTimer := true }
        (Ev.timerProbeRes true)).appCheckTimer = false) ∧
    ((step { Sess.init with usingFallback := true, fallbackConnection := some Conn.create }
        (Ev.pageSend "b")).appConnection
        = ({ Sess.init with usingFallback := true, fallbackConnection := some Conn.create } : Sess).appConnection) ∧
    ((step Sess.init (Ev.pageSend "c")).fallbackConnection = Sess.init.fallbackConnection) :=
  ⟨⟨rfl,
    (c2_amended_switch.1 { Sess.init with awaitFbProbe := true, pendingMessages := ["a"] }
      rfl).1,
    (c2_amended_switch.1 { Sess.init with awaitFbProbe := true, pendingMessages := ["a"] }
      rfl).2.2.1⟩,
   ⟨rfl,
    (c2_amended_switch.2.1
      { Sess.init with awaitTimerProbe := true, usingFallback := true, fallbackConnection := some Conn.create, appCheckTimer := true }
      rfl rfl).1,
    (c2_amended_switch.2.1
      { Sess.init with awaitTimerProbe := true, usingFallback := true, fallbackConnection := some Conn.create, appCheckTimer := true }
      rfl rfl).2.2.1,
    (c2_amended_switch.2.1
      { Sess.init with awaitTimerProbe := true, usingFallback := true, fallbackConnection := some Conn.create, appCheckTimer := true }
      rfl rfl).2.2.2.1⟩,
   (c2_amended_switch.2.2.1
      { Sess.init with usingFallback := true, fallbackConnection := some Conn.create } "b"
      rfl).1,
   (c2_amended_switch.2.2.2 Sess.init "c" rfl).1⟩

/-- Counterexample for C8 as stated: after the session stores the request
with id 1 and then handles the response with id 1, the pending request
table still contains id 1 — `handleMessage` only reads the table
(`reqs.get`) and never deletes. -/
theorem c8_counterexample_entry_retained :
    (handleMessageReqs (portOnMessageReqs [] ⟨some 1, "eth_chainId"⟩) ⟨some 1⟩).1
        = portOnMessageReqs [] ⟨some 1, "eth_chainId"⟩ ∧
    reqsHas (handleMessageReqs (portOnMessageReqs [] ⟨some 1, "eth_chainId"⟩) ⟨some 1⟩).1 1
        = true := by
  refine ⟨rfl, rfl⟩

/-- Claim C8 (amended): requests with a truthy id are inserted into the
pending request table, but handling a response never removes anything:
the table is returned unchanged for every response, and entries persist
until session teardown discards the whole table. -/
theorem c8_amended_table_unchanged :
    (∀ (reqs : List (Nat × Request)) (resp : Response),
      (handleMessageReqs reqs resp).1 = reqs) ∧
    (∀ (reqs : List (Nat × Request)) (req : Request) (i : Nat),
      req.id = some i → i ≠ 0 → reqsHas (portOnMessageReqs reqs req) i = true) := by
  constructor
  · intro reqs resp
    cases hresp : resp.id <;> simp [handleMessageReqs, hresp]
  · intro reqs req i h hi
    simp [portOnMessageReqs, h, hi, reqsSet, reqsHas]

/-- Witness for the amended C8 at a concrete request/response pair. -/
theorem c8_amended_table_unchanged_witness :
    (handleMessageReqs [] ⟨some 3⟩).1 = [] ∧
    ((⟨some 2, "eth_accounts"⟩ : Request).id = some 2 ∧ (2 : Nat) ≠ 0 ∧
     reqsHas (portOnMessageReqs [] ⟨some 2, "eth_accounts"⟩) 2 = true) :=
  ⟨c8_amended_table_unchanged.1 [] ⟨some 3⟩,
   rfl, by decide,
   c8_amended_table_unchanged.2 [] ⟨some 2, "eth_accounts"⟩ 2 rfl (by decide)⟩

/-- Claim C9, evaluated on the code: `setConnectionState` broadcasts
`{type: "connection-state", state}` with *no* `source` field, for every
state and in particular for the `("connected", "app")` call made by the
`onOpen` of the app adapter (whose second argument the one-parameter
`setConnectionState` cannot receive).  This exhibits the divergence from
the claim, which requires the active backend tag as `source`. -/
theorem c9_broadcast_without_source :
    (setConnectionState NotifState.init ConnState.connected).broadcast
        = { type := "connection-state", state := ConnState.connected, source := none } ∧
    (∀ (s : NotifState) (c : ConnState),
      (setConnectionState s c).broadcast.source = none ∧
      (setConnectionState s c).broadcast.type = "connection-state" ∧
      (setConnectionState s c).broadcast.state = c) :=
  ⟨rfl, fun _ _ => ⟨rfl, rfl, rfl⟩⟩

/-! ## Lemmas: `checkConnection` -/

theorem foldl_checkStep_resolved (evs : List ProbeEv) :
    ∀ s : CheckState, s.resolved = true → evs.foldl checkStep s = s := by
  induction evs with
  | nil => intro s _; rfl
  | cons e es ih =>
    intro s h
    have hstep : checkStep s e = s := by cases e <;> simp [checkStep, done, h]
    rw [List.foldl_cons, hstep, ih s h]

theorem checkStep_first (g : NotifState) (e : ProbeEv) :
    checkStep
        { resolved := false, value := none, resolveCount := 0, rejectCount := 0, notif := g } e
      = { resolved := true
          value := some (if e = ProbeEv.wsOpen then ConnState.connected else ConnState.disconnected)
          resolveCount := 1
          rejectCount := 0
          notif := (setConnectionState g
            (if e = ProbeEv.wsOpen then ConnState.connected else ConnState.disconnected)).state } := by
  cases e <;> simp [checkStep, done]

/-- Claim C10: however the open/error/close callbacks of the throwaway socket
and the timeout fire (any order, any number of firings), `checkConnection`
resolves exactly once, never rejects, always with "connected" or
"disconnected" (never "unknown"), and leaves the global connection state
equal to the resolved value. -/
theorem c10_check_connection :
    ∀ (g : NotifState) (evs : List ProbeEv), evs ≠ [] →
      ((runCheck g evs).resolveCount = 1 ∧
       (runCheck g evs).rejectCount = 0 ∧
       ∃ v, (runCheck g evs).value = some v ∧ v ≠ ConnState.unknown ∧
         (runCheck g evs).notif.globalConnectionState = v) := by
  intro g evs h
  cases evs with
  | nil => exact absurd rfl h
  | cons e es =>
    have hrun : runCheck g (e :: es)
        = es.foldl checkStep
            (checkStep
              { resolved := false, value := none, resolveCount := 0, rejectCount := 0,
                notif := g } e) := rfl
    rw [hrun, checkStep_first, foldl_checkStep_resolved es _ rfl]
    refine ⟨rfl, rfl,
      (if e = ProbeEv.wsOpen then ConnState.connected else ConnState.disconnected), rfl, ?_, ?_⟩
    · cases e <;> simp
    · simp [setConnectionState]

/-- Witness for C10 at a concrete firing sequence. -/
theorem c10_check_connection_witness :
    ([ProbeEv.wsOpen, ProbeEv.wsClose] : List ProbeEv) ≠ [] ∧
    ((runCheck NotifState.init [ProbeEv.wsOpen, ProbeEv.wsClose]).resolveCount = 1 ∧
     (runCheck NotifState.init [ProbeEv.wsOpen, ProbeEv.wsClose]).rejectCount = 0 ∧
     ∃ v, (runCheck NotifState.init [ProbeEv.wsOpen, ProbeEv.wsClose]).value = some v ∧
       v ≠ ConnState.unknown ∧
       (runCheck NotifState.init [ProbeEv.wsOpen, ProbeEv.wsClose]).notif.globalConnectionState
          = v) :=
  ⟨by decide,
   c10_check_connection NotifState.init [ProbeEv.wsOpen, ProbeEv.wsClose] (by decide)⟩

end EthuiExt
